import Mathlib

/-!
Verification of the scrape → rewrite → publish pipeline of the `periodico`
repository.  The definitions below are a shallow embedding of the TypeScript
sources (`src/lib/types/openrouter.types.ts`,
`src/lib/services/content-rewriter.integration.ts`) and of the SQL schema
files (`src/unnamed/part_016`, `src/scraper/SETUP_SUPABASE.sql`).
JavaScript numbers are embedded as `Int`/`Nat` (with explicit 32-bit
truncation where the code relies on it) and as `ℚ` for the dollar-cost
arithmetic; `Map` objects become insertion-ordered association lists;
`throw`/`catch` becomes `Except`.
-/

set_option autoImplicit false

/-- State of the `RateLimiter` class (openrouter.types.ts:527-535). -/
structure RateLimiterState where
  requestTimestamps : List Int
  dailyRequests : Nat
  lastResetDate : String
deriving Repr, DecidableEq

/-- Outcome of `RateLimiter.checkLimit` (openrouter.types.ts:537-565):
whether the single `sleep` was performed, the wait that was passed to it
(`none` stands for JavaScript's `-Infinity` when `Math.min` is spread over
an empty array), and the state after cleanup / daily reset. -/
structure CheckOutcome where
  slept : Bool
  waitMs : Option Int
  state : RateLimiterState
deriving Repr, DecidableEq

namespace RateLimiter

/-- `cleanup()` (openrouter.types.ts:572-577): drop timestamps that are
60 s or older. -/
def cleanup (now : Int) (st : RateLimiterState) : RateLimiterState :=
  { st with
    requestTimestamps := st.requestTimestamps.filter (fun ts => now - ts < 60000) }

/-- The daily-counter reset at date rollover (openrouter.types.ts:541-545). -/
def dailyReset (today : String) (st : RateLimiterState) : RateLimiterState :=
  if st.lastResetDate ≠ today then
    { st with dailyRequests := 0, lastResetDate := today }
  else st

/-- The sliding-window filter `now - timestamp < 60000`
(openrouter.types.ts:554-556). -/
def recentRequests (now : Int) (st : RateLimiterState) : List Int :=
  st.requestTimestamps.filter (fun ts => now - ts < 60000)

/-- `checkLimit()` (openrouter.types.ts:537-565).  `now` stands for
`Date.now()` and `today` for `new Date().toDateString()` at the instant of
the call. -/
def checkLimit (requestsPerMinute requestsPerDay : Nat) (now : Int)
    (today : String) (st : RateLimiterState) : Except String CheckOutcome :=
  let st1 := cleanup now st
  let st2 := dailyReset today st1
  if requestsPerDay ≤ st2.dailyRequests then
    .error "Daily rate limit exceeded"
  else
    let recent := recentRequests now st2
    if requestsPerMinute ≤ recent.length then
      .ok ⟨true, recent.min?.map (fun oldest => 60000 - (now - oldest)), st2⟩
    else
      .ok ⟨false, none, st2⟩

/-- `recordRequest()` (openrouter.types.ts:567-570). -/
def recordRequest (now : Int) (st : RateLimiterState) : RateLimiterState :=
  { st with
    requestTimestamps := st.requestTimestamps ++ [now],
    dailyRequests := st.dailyRequests + 1 }

end RateLimiter

/-- State of the `CostTracker` singleton (openrouter.types.ts:596-655).
JavaScript `Map` objects preserve insertion order, hence the
association-list representation. -/
structure CostTracker where
  costs : List (String × ℚ)
  tokenUsage : List (String × ℚ)
deriving Repr, DecidableEq

namespace CostTracker

/-- `Map.prototype.get` with the `|| 0` fallback applied by `recordUsage`. -/
def mapGet : List (String × ℚ) → String → Option ℚ
  | [], _ => none
  | (k0, v0) :: rest, k => if k0 = k then some v0 else mapGet rest k

/-- `Map.prototype.set`: updates an existing key in place, otherwise
appends the new entry at the end. -/
def mapSet : List (String × ℚ) → String → ℚ → List (String × ℚ)
  | [], k, v => [(k, v)]
  | (k0, v0) :: rest, k, v =>
      if k0 = k then (k0, v) :: rest else (k0, v0) :: mapSet rest k v

/-- The fresh tracker produced by the `CostTracker` constructor. -/
def initial : CostTracker := ⟨[], []⟩

/-- `MODEL_COSTS` (openrouter.types.ts:602-609): cost per 1M tokens,
`(input, output)`. -/
def MODEL_COSTS (model : String) : Option (ℚ × ℚ) :=
  if model = "anthropic/claude-3.5-sonnet" then some (3, 15)
  else if model = "openai/gpt-4o" then some (5/2, 10)
  else if model = "google/gemini-1.5-pro" then some (5/4, 5)
  else if model = "meta-llama/llama-4-maverick" then some (1/2, 2)
  else if model = "zhipu/glm-4.5" then some (3/10, 1)
  else if model = "inflection/inflection-3-productivity" then some (2/5, 3/2)
  else none

/-- `calculateCost` (openrouter.types.ts:618-629); unknown models fall back
to the `{ input: 1.0, output: 3.0 }` default rate. -/
def calculateCost (model : String) (promptTokens completionTokens : Nat) : ℚ :=
  let pricing := (MODEL_COSTS model).getD (1, 3)
  (promptTokens : ℚ) / 1000000 * pricing.1 +
    (completionTokens : ℚ) / 1000000 * pricing.2

/-- `recordUsage` (openrouter.types.ts:631-637). -/
def recordUsage (model : String) (cost tokens : ℚ) (st : CostTracker) :
    CostTracker :=
  { costs := mapSet st.costs model ((mapGet st.costs model).getD 0 + cost),
    tokenUsage :=
      mapSet st.tokenUsage model ((mapGet st.tokenUsage model).getD 0 + tokens) }

/-- `getTotalCost` (openrouter.types.ts:652-654): reduce over the values of
the `costs` map. -/
def getTotalCost (st : CostTracker) : ℚ :=
  (st.costs.map Prod.snd).foldl (fun sum cost => sum + cost) 0

end CostTracker

/-- `ChatMessage` (openrouter.types.ts:450-453). -/
structure ChatMessage where
  role : String
  content : String
deriving Repr, DecidableEq

/-- One element of `OpenRouterResponse.choices` (openrouter.types.ts:498-505). -/
structure Choice where
  message : ChatMessage
  finish_reason : String
deriving Repr, DecidableEq

/-- `OpenRouterResponse.usage` (openrouter.types.ts:506-510). -/
structure Usage where
  prompt_tokens : Nat
  completion_tokens : Nat
  total_tokens : Nat
deriving Repr, DecidableEq

/-- `OpenRouterResponse` (openrouter.types.ts:495-512).  `usage` is an
`Option` because `chat` guards on `if (response.usage)` before tracking. -/
structure OpenRouterResponse where
  id : String
  model : String
  choices : List Choice
  usage : Option Usage
  created : Nat
deriving Repr, DecidableEq

/-- `OpenRouterRequest` (openrouter.types.ts:455-465). -/
structure OpenRouterRequest where
  model : String
  messages : List ChatMessage
  temperature : Option ℚ := none
  max_tokens : Option Nat := none
  top_p : Option ℚ := none
  response_format_json : Bool := false
deriving Repr, DecidableEq

/-- What one `fetch` of the chat-completions endpoint yields at a given
attempt number (openrouter.types.ts:735-750): a parsed 2xx body, a non-ok
HTTP status together with the optional `error.error?.message` of its JSON
body, or a thrown network / abort error (the timeout path). -/
inductive FetchOutcome where
  | success (resp : OpenRouterResponse)
  | httpError (status : Nat) (message : Option String)
  | thrown (message : String)
deriving Repr, DecidableEq

deriving instance DecidableEq for Except

/-- Everything observable about one `makeRequestWithRetry` call tree: the
value returned or error thrown, how many HTTP requests were sent to the
provider, and the list of backoff sleeps performed (milliseconds, in
order). -/
structure RetryTrace where
  result : Except String OpenRouterResponse
  requestsSent : Nat
  delays : List Nat
deriving Repr, DecidableEq

namespace OpenRouterClient

/-- `makeRequestWithRetry` (openrouter.types.ts:727-777).  The `throw`
statements for 429, 402 and the generic non-ok case sit inside the `try`
block, so they are caught by the surrounding `catch`, which retries with
backoff `2^attempt * 1000` whenever `attempt < maxRetries` and rethrows
otherwise; the dedicated `>= 500` branch retries with the same delay. -/
def makeRequestWithRetry (maxRetries : Nat) (provider : Nat → FetchOutcome)
    (attempt : Nat) : RetryTrace :=
  match provider attempt with
  | .success resp => ⟨.ok resp, 1, []⟩
  | .httpError status message =>
      if status = 429 then
        if h : attempt < maxRetries then
          let r := makeRequestWithRetry maxRetries provider (attempt + 1)
          ⟨r.result, r.requestsSent + 1, 2 ^ attempt * 1000 :: r.delays⟩
        else ⟨.error "Rate limit exceeded", 1, []⟩
      else if status = 402 then
        if h : attempt < maxRetries then
          let r := makeRequestWithRetry maxRetries provider (attempt + 1)
          ⟨r.result, r.requestsSent + 1, 2 ^ attempt * 1000 :: r.delays⟩
        else ⟨.error "Insufficient credits", 1, []⟩
      else if h : 500 ≤ status ∧ attempt < maxRetries then
        let r := makeRequestWithRetry maxRetries provider (attempt + 1)
        ⟨r.result, r.requestsSent + 1, 2 ^ attempt * 1000 :: r.delays⟩
      else
        if h : attempt < maxRetries then
          let r := makeRequestWithRetry maxRetries provider (attempt + 1)
          ⟨r.result, r.requestsSent + 1, 2 ^ attempt * 1000 :: r.delays⟩
        else ⟨.error (message.getD ("HTTP " ++ toString status)), 1, []⟩
  | .thrown message =>
      if h : attempt < maxRetries then
        let r := makeRequestWithRetry maxRetries provider (attempt + 1)
        ⟨r.result, r.requestsSent + 1, 2 ^ attempt * 1000 :: r.delays⟩
      else ⟨.error message, 1, []⟩
termination_by maxRetries - attempt
decreasing_by all_goals omega

/-- The cost-tracking step of `chat` (openrouter.types.ts:710-722): only
runs when the response carries a `usage` object. -/
def trackUsage (model : String) (usage : Option Usage) (ct : CostTracker) :
    CostTracker :=
  match usage with
  | some u =>
      CostTracker.recordUsage model
        (CostTracker.calculateCost model u.prompt_tokens u.completion_tokens)
        (u.total_tokens : ℚ) ct
  | none => ct

/-- The rate-limit ceilings and retry count of `Required<OpenRouterConfig>`
(openrouter.types.ts:667-686). -/
structure Config where
  maxRetries : Nat
  requestsPerMinute : Nat
  requestsPerDay : Nat
deriving Repr, DecidableEq

/-- `chat` (openrouter.types.ts:702-725): check the rate limit, perform the
request with retries, record the request, track the cost. -/
def chat (cfg : Config) (provider : Nat → FetchOutcome) (now : Int)
    (today : String) (rl : RateLimiterState) (ct : CostTracker)
    (request : OpenRouterRequest) :
    Except String (OpenRouterResponse × RateLimiterState × CostTracker) :=
  match RateLimiter.checkLimit cfg.requestsPerMinute cfg.requestsPerDay
      now today rl with
  | .error e => .error e
  | .ok out =>
      match (makeRequestWithRetry cfg.maxRetries provider 1).result with
      | .error e => .error e
      | .ok resp =>
          .ok (resp, RateLimiter.recordRequest now out.state,
            trackUsage request.model resp.usage ct)

end OpenRouterClient

/-- A JSON value as produced by `JSON.parse`.  Number lexemes are kept as
text: no embedded code inspects a numeric value. -/
inductive Json where
  | null
  | bool (b : Bool)
  | num (lexeme : String)
  | str (s : String)
  | arr (elems : List Json)
  | obj (fields : List (String × Json))
deriving Repr

namespace Json

/-- JSON whitespace. -/
def isWs (c : Char) : Bool :=
  c = ' ' || c = '\t' || c = '\n' || c = '\r'

/-- Skip leading JSON whitespace. -/
def skipWs : List Char → List Char
  | c :: rest => if isWs c then skipWs rest else c :: rest
  | [] => []

/-- Hexadecimal digit value. -/
def hexVal (c : Char) : Option Nat :=
  if '0' ≤ c ∧ c ≤ '9' then some (c.toNat - 48)
  else if 'a' ≤ c ∧ c ≤ 'f' then some (c.toNat - 87)
  else if 'A' ≤ c ∧ c ≤ 'F' then some (c.toNat - 55)
  else none

/-- One escape sequence after a backslash inside a JSON string.  A `\u`
escape denoting a lone surrogate is mapped through `Char.ofNat`'s default;
no input used in this development contains one. -/
def parseEscape : List Char → Except String (Char × List Char)
  | '"' :: rest => .ok ('"', rest)
  | '\\' :: rest => .ok ('\\', rest)
  | '/' :: rest => .ok ('/', rest)
  | 'b' :: rest => .ok ('\x08', rest)
  | 'f' :: rest => .ok ('\x0c', rest)
  | 'n' :: rest => .ok ('\n', rest)
  | 'r' :: rest => .ok ('\r', rest)
  | 't' :: rest => .ok ('\t', rest)
  | 'u' :: a :: b :: c :: d :: rest =>
      match hexVal a, hexVal b, hexVal c, hexVal d with
      | some ha, some hb, some hc, some hd =>
          .ok (Char.ofNat (((ha * 16 + hb) * 16 + hc) * 16 + hd), rest)
      | _, _, _, _ => .error "Bad Unicode escape in JSON"
  | _ => .error "Bad escaped character in JSON"

/-- JSON string body, after the opening quote. -/
def parseStr : Nat → List Char → List Char → Except String (String × List Char)
  | _, _, [] => .error "Unterminated string in JSON"
  | _, acc, '"' :: rest => .ok (String.mk acc.reverse, rest)
  | 0, _, _ => .error "Out of fuel"
  | fuel + 1, acc, '\\' :: rest =>
      match parseEscape rest with
      | .ok (c, rest2) => parseStr fuel (c :: acc) rest2
      | .error e => .error e
  | fuel + 1, acc, c :: rest =>
      if c.toNat < 32 then .error "Bad control character in JSON"
      else parseStr fuel (c :: acc) rest

/-- Longest prefix of decimal digits. -/
def takeDigits : List Char → List Char × List Char
  | c :: rest =>
      if c.isDigit then
        let (ds, r) := takeDigits rest
        (c :: ds, r)
      else ([], c :: rest)
  | [] => ([], [])

/-- JSON number: `-? int frac? exp?` with the strict leading-zero rule. -/
def parseNumber (l : List Char) : Except String (String × List Char) :=
  let (sign, l1) := match l with
    | '-' :: r => (['-'], r)
    | _ => (([] : List Char), l)
  match l1 with
  | c :: _ =>
      if ¬ c.isDigit then .error "Bad number in JSON"
      else
        let (intDigits, l2) :=
          match l1 with
          | '0' :: r => (['0'], r)
          | _ => takeDigits l1
        if intDigits.length ≥ 2 ∧ intDigits.head? = some '0' then
          .error "Bad number in JSON"
        else
          let (fracDigits, l3) :=
            match l2 with
            | '.' :: r =>
                let (ds, r2) := takeDigits r
                (('.' :: ds), r2)
            | _ => (([] : List Char), l2)
          if fracDigits = ['.'] then .error "Bad number in JSON"
          else
            let (expDigits, l4) :=
              match l3 with
              | 'e' :: '+' :: r => (['e', '+'], r)
              | 'e' :: '-' :: r => (['e', '-'], r)
              | 'e' :: r => (['e'], r)
              | 'E' :: '+' :: r => (['E', '+'], r)
              | 'E' :: '-' :: r => (['E', '-'], r)
              | 'E' :: r => (['E'], r)
              | _ => (([] : List Char), l3)
            if expDigits = [] then
              .ok (String.mk (sign ++ intDigits ++ fracDigits), l3)
            else
              let (eds, l5) := takeDigits l4
              if eds = [] then .error "Bad number in JSON"
              else
                .ok (String.mk (sign ++ intDigits ++ fracDigits ++
                  expDigits ++ eds), l5)
  | [] => .error "Bad number in JSON"

mutual

/-- One JSON value, returning the unconsumed remainder. -/
def parseValue : Nat → List Char → Except String (Json × List Char)
  | 0, _ => .error "Out of fuel"
  | fuel + 1, l =>
      match skipWs l with
      | [] => .error "Unexpected end of JSON input"
      | 'n' :: 'u' :: 'l' :: 'l' :: rest => .ok (.null, rest)
      | 't' :: 'r' :: 'u' :: 'e' :: rest => .ok (.bool true, rest)
      | 'f' :: 'a' :: 'l' :: 's' :: 'e' :: rest => .ok (.bool false, rest)
      | '"' :: rest =>
          match parseStr (fuel + 1) [] rest with
          | .ok (s, rest2) => .ok (.str s, rest2)
          | .error e => .error e
      | '[' :: rest =>
          (match skipWs rest with
          | ']' :: rest2 => .ok (.arr [], rest2)
          | l2 => parseArrayItems fuel [] l2)
      | '{' :: rest =>
          (match skipWs rest with
          | '}' :: rest2 => .ok (.obj [], rest2)
          | l2 => parseObjectFields fuel [] l2)
      | c :: rest =>
          if c = '-' ∨ c.isDigit then
            match parseNumber (c :: rest) with
            | .ok (s, rest2) => .ok (.num s, rest2)
            | .error e => .error e
          else .error "Unexpected token in JSON"

/-- Comma-separated array elements, after `[`. -/
def parseArrayItems : Nat → List Json → List Char →
    Except String (Json × List Char)
  | 0, _, _ => .error "Out of fuel"
  | fuel + 1, acc, l =>
      match parseValue fuel l with
      | .error e => .error e
      | .ok (v, rest) =>
          match skipWs rest with
          | ',' :: rest2 => parseArrayItems fuel (v :: acc) rest2
          | ']' :: rest2 => .ok (.arr (v :: acc).reverse, rest2)
          | _ => .error "Expected comma or bracket in JSON array"

/-- Comma-separated `"key": value` fields, after `{`. -/
def parseObjectFields : Nat → List (String × Json) → List Char →
    Except String (Json × List Char)
  | 0, _, _ => .error "Out of fuel"
  | fuel + 1, acc, l =>
      match skipWs l with
      | '"' :: rest =>
          (match parseStr (fuel + 1) [] rest with
          | .error e => .error e
          | .ok (key, rest2) =>
              match skipWs rest2 with
              | ':' :: rest3 =>
                  (match parseValue fuel rest3 with
                  | .error e => .error e
                  | .ok (v, rest4) =>
                      match skipWs rest4 with
                      | ',' :: rest5 =>
                          parseObjectFields fuel ((key, v) :: acc) rest5
                      | '}' :: rest5 => .ok (.obj ((key, v) :: acc).reverse, rest5)
                      | _ => .error "Expected comma or brace in JSON object")
              | _ => .error "Expected colon in JSON object")
      | _ => .error "Expected string key in JSON object"

end

/-- `JSON.parse`: parse a complete JSON text, rejecting trailing input. -/
def jsonParse (s : String) : Except String Json :=
  match parseValue (s.length + 1) s.data with
  | .ok (j, rest) =>
      if skipWs rest = [] then .ok j
      else .error "Unexpected non-whitespace character after JSON"
  | .error e => .error e

/-- Property access on a parsed JSON value; for duplicate keys
`JSON.parse` keeps the last occurrence. -/
def jsonGet (j : Json) (key : String) : Option Json :=
  match j with
  | .obj fields => (fields.reverse.find? (fun kv => kv.1 = key)).map Prod.snd
  | _ => none

/-- Property access that yields a string, `undefined` otherwise. -/
def jsonGetStr (j : Json) (key : String) : Option String :=
  match jsonGet j key with
  | some (.str s) => some s
  | _ => none

end Json

/-- `RewriteResult` (openrouter.types.ts:514-521).  `timestamp` keeps the
clock reading that `new Date().toISOString()` serialises. -/
structure RewriteResult where
  originalText : String
  rewrittenText : String
  model : String
  tokensUsed : Nat
  cost : ℚ
  timestamp : Int
deriving Repr, DecidableEq

namespace ContentRewritingService

/-- Truncation of a JavaScript number to a signed 32-bit integer
(`ToInt32`), as performed by the `<<` and `&` operators. -/
def toInt32 (z : Int) : Int :=
  (z + 2 ^ 31) % 2 ^ 32 - 2 ^ 31

/-- The UTF-16 code units of a character, matching `charCodeAt`. -/
def utf16Units (c : Char) : List Nat :=
  if c.toNat < 65536 then [c.toNat]
  else
    [55296 + (c.toNat - 65536) / 1024, 56320 + (c.toNat - 65536) % 1024]

/-- One iteration of the `hashString` loop (openrouter.types.ts:1022-1030):
`hash = (hash << 5) - hash + char; hash = hash & hash`. -/
def hashStep (hash : Int) (code : Nat) : Int :=
  toInt32 (toInt32 (hash * 32) - hash + code)

/-- The numeric hash accumulated by `hashString` before `toString(36)`. -/
def hashValue (s : String) : Int :=
  ((s.data.map utf16Units).flatten).foldl hashStep 0

/-- Digit characters of `Number.prototype.toString(36)`. -/
def digit36 (d : Nat) : Char :=
  if d < 10 then Char.ofNat (48 + d) else Char.ofNat (87 + d)

/-- Base-36 digits of a natural number (fuel-driven division loop). -/
def toBase36Aux : Nat → Nat → List Char
  | 0, _ => []
  | fuel + 1, n =>
      if n < 36 then [digit36 n]
      else toBase36Aux fuel (n / 36) ++ [digit36 (n % 36)]

/-- `Number.prototype.toString(36)` for the 32-bit hash value. -/
def intToString36 (z : Int) : String :=
  if z < 0 then "-" ++ String.mk (toBase36Aux (z.natAbs + 1) z.natAbs)
  else String.mk (toBase36Aux (z.toNat + 1) z.toNat)

/-- `hashString` (openrouter.types.ts:1022-1030). -/
def hashString (s : String) : String :=
  intToString36 (hashValue s)

/-- One entry of the response cache.

Modelled from the spec: the `cache` object imported from `../database`
(src/lib/database is not among the sources).  Per §4.4 of the spec it is a
process-lifetime key/value store in which `set(key, value, ttlMs)` stores a
value that `get(key)` returns until the TTL window has elapsed. -/
structure CacheEntry where
  value : RewriteResult
  expiresAt : Int
deriving Repr, DecidableEq

/-- Modelled from the spec: the state of the `cache` collaborator
(src/lib/database, absent from the sources) — keys mapped to values with
their expiry instants. -/
abbrev CacheState := List (String × CacheEntry)

/-- Modelled from the spec: `cache.get(key)` returns the stored value while
the TTL window is still open, and nothing otherwise. -/
def cacheGet (now : Int) (c : CacheState) (key : String) :
    Option RewriteResult :=
  match (List.find? (fun kv => kv.1 = key) c) with
  | some kv => if now < kv.2.expiresAt then some kv.2.value else none
  | none => none

/-- Modelled from the spec: `cache.set(key, value, ttlMs)` stores the value
under the key until `now + ttlMs`, replacing any previous entry. -/
def cacheSet (c : CacheState) (key : String) (v : RewriteResult)
    (ttlMs : Int) (now : Int) : CacheState :=
  (key, ⟨v, now + ttlMs⟩) ::
    (List.filter (fun kv => kv.1 ≠ key) c)

/-- The options bag of `rewriteNewsArticle` (openrouter.types.ts:822-828). -/
structure RewriteOptions where
  style : Option String := none
  tone : Option String := none
  length : Option String := none
  preserveFacts : Option Bool := none
  model : Option String := none
deriving Repr, DecidableEq

/-- JavaScript `a || b` for string options (empty string is falsy). -/
def jsOrString (a : Option String) (b : String) : String :=
  match a with
  | some s => if s = "" then b else s
  | none => b

/-- `getSystemPrompt` (openrouter.types.ts:964-989). -/
def getSystemPrompt (options : RewriteOptions) : String :=
  let style := jsOrString options.style "formal"
  let tone := jsOrString options.tone "neutral"
  let base :=
    if style = "formal" then
      "You are a professional Argentine political news journalist. Write in a formal, objective style suitable for serious news coverage. Use proper Spanish grammar and maintain journalistic integrity."
    else if style = "casual" then
      "You are a modern news writer for Argentine politics. Write in an accessible, engaging style while maintaining accuracy. Use clear language that connects with readers."
    else if style = "investigative" then
      "You are an investigative journalist specializing in Argentine politics. Write in a detailed, analytical style that uncovers deeper truths. Be thorough and critical while remaining factual."
    else if style = "opinion" then
      "You are a political opinion columnist for an Argentine publication. Write with a clear perspective while backing opinions with facts. Be engaging and persuasive."
    else
      "You are a professional Argentine political news journalist. Write in a formal, objective style suitable for serious news coverage. Use proper Spanish grammar and maintain journalistic integrity."
  let withTone :=
    if tone = "critical" then
      base ++ " Take a critical, questioning approach to the subject matter."
    else if tone = "supportive" then
      base ++ " Present the information in a balanced but favorable light."
    else base
  if options.preserveFacts = some true then
    withTone ++
      " IMPORTANT: Preserve all factual information, dates, names, and quotes from the original text. Only change the writing style and structure."
  else withTone

/-- `buildRewritePrompt` (openrouter.types.ts:991-1020). -/
def buildRewritePrompt (title content : String) (options : RewriteOptions) :
    String :=
  let length := jsOrString options.length "same"
  let lengthInstruction :=
    if length = "shorter" then
      "Make the rewritten version approximately 30% shorter while keeping key information."
    else if length = "same" then
      "Keep the rewritten version approximately the same length."
    else if length = "longer" then
      "Expand the rewritten version by approximately 30%, adding context and detail."
    else ""
  "Rewrite this Argentine political news article:\n\nTITLE: " ++ title ++
    "\n\nCONTENT:\n" ++ content ++
    "\n\nInstructions:\n- " ++ lengthInstruction ++
    "\n- Maintain all factual accuracy\n- Preserve names, dates, quotes, and statistics\n- Use clear, professional Spanish\n- Focus on Argentine political context\n- Ensure the rewrite is original and unique\n- Return ONLY the rewritten content, no explanations\n\nBegin the rewrite now:"

/-- Mutable state threaded through a `ContentRewritingService` call: the
response cache plus the rate-limiter and cost-tracker state owned by the
`OpenRouterClient` it delegates to. -/
structure ServiceState where
  cache : CacheState
  rl : RateLimiterState
  ct : CostTracker
deriving DecidableEq

/-- `rewriteNewsArticle` (openrouter.types.ts:819-873).  `provider` is the
HTTP collaborator passed down to `makeRequestWithRetry`; the returned `Nat`
counts the chat calls issued to the LLM client (`0` on a cache hit).
Reading `choices[0].message.content` or `usage.total_tokens` off a response
that lacks them is the JavaScript `TypeError` path. -/
def rewriteNewsArticle (cfg : OpenRouterClient.Config)
    (provider : Nat → FetchOutcome) (now : Int) (today : String)
    (st : ServiceState) (title content : String) (options : RewriteOptions) :
    Except String (RewriteResult × ServiceState × Nat) :=
  let cacheKey := "rewrite:" ++ hashString (title ++ content)
  match cacheGet now st.cache cacheKey with
  | some cached => .ok (cached, st, 0)
  | none =>
      let request : OpenRouterRequest :=
        { model := jsOrString options.model "meta-llama/llama-4-maverick",
          messages :=
            [⟨"system", getSystemPrompt options⟩,
             ⟨"user", buildRewritePrompt title content options⟩],
          temperature := some (7/10),
          max_tokens := some 4000,
          top_p := some (9/10) }
      match OpenRouterClient.chat cfg provider now today st.rl st.ct request with
      | .error e => .error e
      | .ok (response, rl2, ct2) =>
          match response.choices.head? with
          | none => .error "TypeError: Cannot read properties of undefined (reading message)"
          | some choice =>
              match response.usage with
              | none => .error "TypeError: Cannot read properties of undefined (reading total_tokens)"
              | some usage =>
                  let result : RewriteResult :=
                    { originalText := content,
                      rewrittenText := choice.message.content,
                      model := response.model,
                      tokensUsed := usage.total_tokens,
                      cost := 0,
                      timestamp := now }
                  .ok (result,
                    ⟨cacheSet st.cache cacheKey result 3600000 now, rl2, ct2⟩,
                    1)

/-- `generateHeadline` (openrouter.types.ts:875-917): issue the chat
request and feed `choices[0].message.content` straight into `JSON.parse`.
`chatOutcome` is the result of the `this.client.chat(request)` call. -/
def generateHeadline (chatOutcome : Except String OpenRouterResponse) :
    Except String Json :=
  match chatOutcome with
  | .error e => .error e
  | .ok response =>
      match response.choices.head? with
      | none => .error "TypeError: Cannot read properties of undefined (reading message)"
      | some choice => Json.jsonParse choice.message.content

/-- `Except.isOk = false`, i.e. the call threw. -/
def isErr {ε α : Type} (e : Except ε α) : Bool :=
  match e with
  | .error _ => true
  | .ok _ => false

end ContentRewritingService

/-- The fields of a `Noticia` read by the rewriter integration
(content-rewriter.integration.ts:151-204). -/
structure Noticia where
  id : String
  title : String
  content : Option String
  excerpt : String
deriving Repr, DecidableEq

/-- `RewriteJobConfig` (content-rewriter.integration.ts:16-24). -/
structure RewriteJobConfig where
  noticiaId : String
  style : Option String := none
  tone : Option String := none
  length : Option String := none
  updateOriginal : Option Bool := none
  generateNewHeadline : Option Bool := none
  model : Option String := none
deriving Repr, DecidableEq

/-- `RewriteJob.result` (content-rewriter.integration.ts:31-39). -/
structure JobResult where
  originalTitle : String
  rewrittenTitle : Option String
  originalContent : String
  rewrittenContent : String
  tokensUsed : Nat
  cost : ℚ
  model : String
deriving Repr, DecidableEq

/-- `RewriteJob.status` (content-rewriter.integration.ts:29). -/
inductive JobStatus where
  | pending
  | processing
  | completed
  | failed
deriving Repr, DecidableEq

/-- `RewriteJob` (content-rewriter.integration.ts:26-43). -/
structure RewriteJob where
  id : String
  noticiaId : String
  status : JobStatus
  config : RewriteJobConfig
  result : Option JobResult := none
  error : Option String := none
  createdAt : Int
  completedAt : Option Int := none
deriving Repr, DecidableEq

/-- JavaScript truthiness of an optional boolean flag. -/
def jsTruthy (b : Option Bool) : Bool :=
  b = some true

namespace ContentRewriterIntegration

/-- The collaborator outcomes one `rewriteNoticia` run observes: the
noticia fetched by `noticiaService.getNoticiaById`, the outcome of the
`rewriteNewsArticle` call, the chat response behind the optional
`generateHeadline` call, and the outcome of `noticiaService.updateNoticia`. -/
structure ItemEnv where
  noticia : Option Noticia
  rewriteOutcome : Except String RewriteResult
  headlineChat : Except String OpenRouterResponse
  updateOutcome : Except String Unit

/-- The failure path of `rewriteNoticia`'s `catch` block
(content-rewriter.integration.ts:213-221): mark the job failed, store the
message, stamp `completedAt`, and rethrow. -/
def failJob (jb : RewriteJob) (e : String) (now : Int) :
    RewriteJob × Option String :=
  ({ jb with status := .failed, error := some e, completedAt := some now },
    some e)

/-- `rewriteNoticia` (content-rewriter.integration.ts:136-222).  Returns
the job in the state the queue last saw it together with the rethrown
error, if any.  Note that `job.result` is assigned *before* the optional
`updateNoticia` call, and the `catch` block never clears it. -/
def rewriteNoticia (env : ItemEnv) (config : RewriteJobConfig)
    (jobId : String) (now : Int) : RewriteJob × Option String :=
  let job0 : RewriteJob :=
    { id := jobId, noticiaId := config.noticiaId, status := .pending,
      config := config, createdAt := now }
  match env.noticia with
  | none => failJob job0 ("Noticia " ++ config.noticiaId ++ " not found") now
  | some noticia =>
      let job1 := { job0 with status := .processing }
      match env.rewriteOutcome with
      | .error e => failJob job1 e now
      | .ok rewriteResult =>
          let headlineStep : Except String (Option String) :=
            if jsTruthy config.generateNewHeadline then
              match ContentRewritingService.generateHeadline env.headlineChat with
              | .error e => .error e
              | .ok headlineResult =>
                  .ok (Json.jsonGetStr headlineResult "headline")
            else .ok (some noticia.title)
          match headlineStep with
          | .error e => failJob job1 e now
          | .ok rewrittenTitle =>
              let job2 :=
                { job1 with
                  result := some
                    { originalTitle := noticia.title,
                      rewrittenTitle :=
                        if jsTruthy config.generateNewHeadline then
                          rewrittenTitle
                        else none,
                      originalContent :=
                        ContentRewritingService.jsOrString noticia.content
                          noticia.excerpt,
                      rewrittenContent := rewriteResult.rewrittenText,
                      tokensUsed := rewriteResult.tokensUsed,
                      cost := rewriteResult.cost,
                      model := rewriteResult.model } }
              let updateStep : Except String Unit :=
                if jsTruthy config.updateOriginal then env.updateOutcome
                else .ok ()
              match updateStep with
              | .error e => failJob job2 e now
              | .ok _ =>
                  ({ job2 with status := .completed, completedAt := some now },
                    none)

/-- `BatchRewriteConfig` (content-rewriter.integration.ts:45-51). -/
structure BatchRewriteConfig where
  category : Option String := none
  limit : Option Nat := none
  style : Option String := none
  tone : Option String := none
  model : Option String := none

/-- The per-item job config built inside the `batchRewrite` loop
(content-rewriter.integration.ts:238-244). -/
def batchJobConfig (cfg : BatchRewriteConfig) (noticiaId : String) :
    RewriteJobConfig :=
  { noticiaId := noticiaId, style := cfg.style, tone := cfg.tone,
    updateOriginal := some false, model := cfg.model }

/-- What a `batchRewrite` call leaves behind: the jobs recorded in the
queue (one per noticia — every promise is created eagerly in the loop, so
each item runs to completion whatever the others do) and the value the
`Promise.all` promise settles to: fulfilled with all jobs, or rejected
with the error of a failed item (temporal rejection order is abstracted as
list order). -/
structure BatchTrace where
  jobs : List RewriteJob
  result : Except String (List RewriteJob)

/-- `batchRewrite` (content-rewriter.integration.ts:228-250).  `noticias`
is the list returned by `noticiaService.getNoticiasByCategory`; `envOf`
supplies each item's collaborator outcomes. -/
def batchRewrite (envOf : String → ItemEnv) (cfg : BatchRewriteConfig)
    (noticias : List Noticia) (now : Int) : BatchTrace :=
  let runs := noticias.map
    (fun n => rewriteNoticia (envOf n.id) (batchJobConfig cfg n.id)
      ("job_" ++ n.id) now)
  let jobs := runs.map Prod.fst
  match (runs.filterMap Prod.snd).head? with
  | some e => { jobs := jobs, result := .error e }
  | none => { jobs := jobs, result := .ok jobs }

end ContentRewriterIntegration

/-- A row of the `noticias` table (src/unnamed/part_016:64-81).  The
foreign keys to `categorias` and `usuarios` are kept as bare identifiers;
`source_url` is declared `TEXT` with only a plain index
(`idx_noticias_source_url`) — no UNIQUE constraint. -/
structure NoticiaRow where
  id : String
  title : String
  subtitle : Option String := none
  slug : String
  category_id : String
  excerpt : String
  content : String
  image_url : String
  author_id : String
  views : Int := 0
  status : String := "draft"
  is_breaking : Bool := false
  source_type : Int := 1
  source_url : Option String := none
  published_at : Option Int := none
deriving Repr, DecidableEq

/-- The table-local constraints `INSERT INTO noticias` must satisfy:
primary key on `id`, UNIQUE on `slug`, and the two CHECK clauses.  NOT
NULL obligations are carried by the field types. -/
def noticiasConstraintsOk (table : List NoticiaRow) (r : NoticiaRow) : Bool :=
  table.all (fun q => q.id ≠ r.id) &&
  table.all (fun q => q.slug ≠ r.slug) &&
  (r.status = "draft" || r.status = "published" || r.status = "archived") &&
  (r.source_type = 0 || r.source_type = 1)

/-- `INSERT` into `noticias`: appends the row when every declared
constraint holds, and raises a constraint violation otherwise. -/
def noticiasInsert (table : List NoticiaRow) (r : NoticiaRow) :
    Except String (List NoticiaRow) :=
  if noticiasConstraintsOk table r then .ok (table ++ [r])
  else .error "constraint violation"

/-- A row of the scraper's `articles` table
(src/scraper/SETUP_SUPABASE.sql:8-39).  Here `source_url` is declared
`TEXT UNIQUE NOT NULL`. -/
structure ArticleRow where
  id : String
  slug : String
  title : String
  subtitle : Option String := none
  excerpt : String
  content : Option String := none
  category : String
  category_slug : String
  author : Option String := none
  source : String
  source_url : String
  published_at : Int
  image_url : Option String := none
  tags : List String := []
  is_breaking : Bool := false
  views : Int := 0
deriving Repr, DecidableEq

/-- The constraints `INSERT INTO articles` must satisfy: primary key on
`id`, UNIQUE on `slug`, UNIQUE on `source_url`. -/
def articlesConstraintsOk (table : List ArticleRow) (r : ArticleRow) : Bool :=
  table.all (fun q => q.id ≠ r.id) &&
  table.all (fun q => q.slug ≠ r.slug) &&
  table.all (fun q => q.source_url ≠ r.source_url)

/-- `INSERT` into `articles`: appends the row when every declared
constraint holds, and raises a unique-constraint violation otherwise. -/
def articlesInsert (table : List ArticleRow) (r : ArticleRow) :
    Except String (List ArticleRow) :=
  if articlesConstraintsOk table r then .ok (table ++ [r])
  else .error "unique constraint violation"

/-- The cost-tracker evolution over a sequence of successful chat calls
with known token usage: each call contributes its model name and `usage`
object through the tracking step of `chat`. -/
def runUsages (calls : List (String × Usage)) (ct : CostTracker) :
    CostTracker :=
  calls.foldl (fun acc c => OpenRouterClient.trackUsage c.1 (some c.2) acc) ct

/-- Invariant of the response cache: every stored `RewriteResult` carries
the hard-coded `cost: 0` that `rewriteNewsArticle` writes. -/
def CacheWF (c : ContentRewritingService.CacheState) : Prop :=
  ∀ kv ∈ c, (kv : String × ContentRewritingService.CacheEntry).2.value.cost = 0

/-- A provider usage object for concrete runs. -/
def wUsage : Usage := ⟨100, 200, 300⟩

/-- A parsed 2xx chat-completion body for concrete runs. -/
def wResp : OpenRouterResponse :=
  ⟨"gen-1", "meta-llama/llama-4-maverick",
    [⟨⟨"assistant", "Texto reescrito."⟩, "stop"⟩], some wUsage, 0⟩

/-- A provider that returns HTTP 500 on the first two attempts and a
successful body on the third. -/
def wProvider500 : Nat → FetchOutcome :=
  fun attempt => if attempt ≤ 2 then .httpError 500 none else .success wResp

/-- A provider that always succeeds. -/
def wProviderOk : Nat → FetchOutcome := fun _ => .success wResp

/-- A chat response whose content is prose, not JSON. -/
def wPlainResp : OpenRouterResponse :=
  ⟨"gen-2", "meta-llama/llama-4-maverick",
    [⟨⟨"assistant", "Titular sin JSON"⟩, "stop"⟩], some wUsage, 0⟩

/-- A chat response whose content is the JSON object the headline prompt
asks for. -/
def wJsonResp : OpenRouterResponse :=
  ⟨"gen-3", "meta-llama/llama-4-maverick",
    [⟨⟨"assistant", "\x7b\"headline\": \"Hola\"\x7d"⟩, "stop"⟩],
    some wUsage, 0⟩

/-- A successful rewrite outcome for concrete integration runs. -/
def wRewriteResult : RewriteResult :=
  ⟨"texto original", "texto reescrito", "meta-llama/llama-4-maverick",
    300, 0, 0⟩

/-- A noticia for concrete integration runs. -/
def wNoticia : Noticia := ⟨"n1", "Titulo", some "texto original", "extracto"⟩

/-- A second noticia for concrete batch runs. -/
def wNoticia2 : Noticia := ⟨"n2", "Titulo 2", some "otro texto", "extracto 2"⟩

/-- An environment in which the rewrite succeeds but the
`updateNoticia` write fails. -/
def wEnvUpdateFails : ContentRewriterIntegration.ItemEnv :=
  { noticia := some wNoticia,
    rewriteOutcome := .ok wRewriteResult,
    headlineChat := .ok wJsonResp,
    updateOutcome := .error "db write failed" }

/-- An environment in which every collaborator succeeds. -/
def wEnvOk : ContentRewriterIntegration.ItemEnv :=
  { noticia := some wNoticia2,
    rewriteOutcome := .ok wRewriteResult,
    headlineChat := .ok wJsonResp,
    updateOutcome := .ok () }

/-- An environment in which the rewrite call itself fails. -/
def wEnvRewriteFails : ContentRewriterIntegration.ItemEnv :=
  { noticia := some wNoticia,
    rewriteOutcome := .error "Rate limit exceeded",
    headlineChat := .ok wJsonResp,
    updateOutcome := .ok () }

/-- A job config asking `rewriteNoticia` to write the rewrite back to the
original noticia. -/
def wUpdateConfig : RewriteJobConfig :=
  { noticiaId := "n1", updateOriginal := some true }

/-- The per-item environments of a concrete batch: the first item's
rewrite fails, the second item's collaborators all succeed. -/
def wBatchEnvOf : String → ContentRewriterIntegration.ItemEnv :=
  fun id => if id = "n1" then wEnvRewriteFails else wEnvOk

/-- A concrete `noticias` row. -/
def nRow1 : NoticiaRow :=
  { id := "n1", title := "A", slug := "a", category_id := "c1",
    excerpt := "e1", content := "t1", image_url := "i1", author_id := "u1",
    source_url := some "https://site/x" }

/-- A second `noticias` row with a different id and slug but the same
source URL. -/
def nRow2 : NoticiaRow :=
  { id := "n2", title := "B", slug := "b", category_id := "c1",
    excerpt := "e2", content := "t2", image_url := "i2", author_id := "u1",
    source_url := some "https://site/x" }

/-- A concrete `articles` row. -/
def aRow1 : ArticleRow :=
  { id := "a1", slug := "a", title := "A", excerpt := "e1",
    category := "Politica", category_slug := "politica", source := "site",
    source_url := "https://site/x", published_at := 0 }

/-- An `articles` row sharing `aRow1`'s source URL. -/
def aRow2 : ArticleRow :=
  { id := "a2", slug := "b", title := "B", excerpt := "e2",
    category := "Politica", category_slug := "politica", source := "site",
    source_url := "https://site/x", published_at := 0 }

/-- An `articles` row with a fresh source URL. -/
def aRow3 : ArticleRow :=
  { id := "a3", slug := "c", title := "C", excerpt := "e3",
    category := "Politica", category_slug := "politica", source := "site",
    source_url := "https://site/y", published_at := 0 }


/-- An empty service state: empty cache, fresh rate limiter (date `"d"`),
fresh cost tracker. -/
def wEmptyService : ContentRewritingService.ServiceState :=
  ⟨[], ⟨[], 0, "d"⟩, CostTracker.initial⟩

/-- The cache key `rewriteNewsArticle` computes for title `"t"` and
content `"c"`. -/
def wKey : String :=
  "rewrite:" ++ ContentRewritingService.hashString ("t" ++ "c")

/-- A service state whose cache already holds `wRewriteResult` under
`wKey`, expiring at t = 10. -/
def wCachedService : ContentRewritingService.ServiceState :=
  ⟨[(wKey, ⟨wRewriteResult, 10⟩)], ⟨[], 0, "d"⟩, CostTracker.initial⟩

/-- The `RewriteResult` a cache-miss call on `("t", "c")` against
`wProviderOk` constructs at t = 0. -/
def wR1 : RewriteResult :=
  ⟨"c", "Texto reescrito.", "meta-llama/llama-4-maverick", 300, 0, 0⟩

/-- The cost-tracker state after that call. -/
def wCt1 : CostTracker :=
  OpenRouterClient.trackUsage "meta-llama/llama-4-maverick" (some wUsage)
    CostTracker.initial

/-- The full service state after that call: result cached under `wKey`,
one request recorded, cost tracked. -/
def wSt1 : ContentRewritingService.ServiceState :=
  ⟨ContentRewritingService.cacheSet [] wKey wR1 3600000 0, ⟨[0], 1, "d"⟩,
    wCt1⟩

/-! ## Helper lemmas -/

theorem cleanup_dailyRequests (now : Int) (st : RateLimiterState) :
    (RateLimiter.cleanup now st).dailyRequests = st.dailyRequests := rfl

theorem cleanup_lastResetDate (now : Int) (st : RateLimiterState) :
    (RateLimiter.cleanup now st).lastResetDate = st.lastResetDate := rfl

theorem dailyReset_same (today : String) (st : RateLimiterState)
    (h : st.lastResetDate = today) : RateLimiter.dailyReset today st = st := by
  simp [RateLimiter.dailyReset, h]

theorem recent_cleanup (now : Int) (st : RateLimiterState) :
    RateLimiter.recentRequests now (RateLimiter.cleanup now st) =
      RateLimiter.recentRequests now st := by
  simp [RateLimiter.recentRequests, RateLimiter.cleanup, List.filter_filter]

/-! ## C1 — 429 / 402 handling in `makeRequestWithRetry` -/

/-- **C1**: the claim says a 429 or 402 response fails the call immediately
with no further request.  In the code the dedicated `throw` statements for
these statuses sit inside the `try` block, so the surrounding `catch`
retries them like any transient error: with `maxRetries = 3` (the
production configuration) a provider that always answers 429 (resp. 402)
receives **three** requests, with backoff sleeps of 2000 ms and 4000 ms,
before the error surfaces. -/
theorem c1_429_402_are_retried :
    OpenRouterClient.makeRequestWithRetry 3 (fun _ => .httpError 429 none) 1 =
      ⟨.error "Rate limit exceeded", 3, [2000, 4000]⟩ ∧
    OpenRouterClient.makeRequestWithRetry 3 (fun _ => .httpError 402 none) 1 =
      ⟨.error "Insufficient credits", 3, [2000, 4000]⟩ := by
  constructor <;> simp [OpenRouterClient.makeRequestWithRetry]

/-! ## C2 — source-URL uniqueness in the content store -/

/-- **C2, counterexample**: the `noticias` table declares no UNIQUE
constraint on `source_url` (only the plain index
`idx_noticias_source_url`), so presenting the same source URL a second
time inserts a second row: two distinct persisted rows share the non-null
source URL `https://site/x`. -/
theorem c2_noticias_duplicate_source_url :
    noticiasInsert [nRow1] nRow2 = .ok [nRow1, nRow2] ∧
    nRow1.source_url = some "https://site/x" ∧
    nRow2.source_url = some "https://site/x" ∧
    nRow1 ≠ nRow2 := by
  refine ⟨rfl, rfl, rfl, ?_⟩
  intro h
  exact absurd (congrArg NoticiaRow.id h) (by decide)

/-- **C2, amended**: the guarantee does hold for the scraper's `articles`
table, whose `source_url` column is `UNIQUE NOT NULL`: a successful insert
preserves pairwise-distinct source URLs, and an insert presenting an
already-stored source URL is rejected with a unique-constraint error, so
no second row is ever created there. -/
theorem c2_articles_source_url_unique (table : List ArticleRow)
    (r : ArticleRow) :
    (List.Pairwise (fun a b : ArticleRow => a.source_url ≠ b.source_url)
        table →
      ∀ t', articlesInsert table r = .ok t' →
        List.Pairwise (fun a b : ArticleRow => a.source_url ≠ b.source_url)
          t') ∧
    ((∃ q ∈ table, q.source_url = r.source_url) →
      articlesInsert table r = .error "unique constraint violation") := by
  constructor
  · intro hpw t' hins
    unfold articlesInsert at hins
    split at hins
    case isTrue hok =>
      cases hins
      rw [List.pairwise_append]
      simp only [articlesConstraintsOk, Bool.and_eq_true, List.all_eq_true,
        decide_eq_true_eq] at hok
      refine ⟨hpw, by simp, ?_⟩
      intro a ha b hb
      simp only [List.mem_singleton] at hb
      subst hb
      exact hok.2 a ha
    case isFalse => cases hins
  · rintro ⟨q, hq, hurl⟩
    have hfalse : articlesConstraintsOk table r = false := by
      simp only [articlesConstraintsOk, Bool.and_eq_false_iff,
        List.all_eq_false]
      right
      exact ⟨q, hq, by simp [hurl]⟩
    simp [articlesInsert, hfalse]

/-- Witness for the amended C2: inserting a fresh source URL succeeds and
keeps source URLs pairwise distinct; re-presenting `https://site/x`
errors. -/
theorem c2_articles_witness :
    List.Pairwise (fun a b : ArticleRow => a.source_url ≠ b.source_url)
      [aRow1, aRow3] ∧
    articlesInsert [aRow1] aRow2 = .error "unique constraint violation" := by
  constructor
  · exact (c2_articles_source_url_unique [aRow1] aRow3).1 (by simp) _ rfl
  · exact (c2_articles_source_url_unique [aRow1] aRow2).2
      ⟨aRow1, by simp, rfl⟩

/-! ## C3 — `checkLimit` daily guard and sliding window -/

/-- **C3**: if no date rollover happened and the daily counter has reached
the per-day ceiling, `checkLimit` raises `Daily rate limit exceeded` —
before any sleep, whatever the timestamp window holds; otherwise, when the
60-second sliding window holds at least `requestsPerMinute` entries, it
performs exactly one sleep of `60000 - (now - oldest)` milliseconds and
then proceeds. -/
theorem c3_checkLimit_daily_guard_and_sliding_window
    (rpm rpd : Nat) (now oldest : Int) (today : String)
    (st : RateLimiterState) :
    (st.lastResetDate = today → rpd ≤ st.dailyRequests →
      RateLimiter.checkLimit rpm rpd now today st =
        .error "Daily rate limit exceeded") ∧
    (st.lastResetDate = today → st.dailyRequests < rpd →
      rpm ≤ (RateLimiter.recentRequests now st).length →
      (RateLimiter.recentRequests now st).min? = some oldest →
      RateLimiter.checkLimit rpm rpd now today st =
        .ok ⟨true, some (60000 - (now - oldest)),
          RateLimiter.cleanup now st⟩) := by
  constructor
  · intro hdate hday
    simp only [RateLimiter.checkLimit]
    rw [dailyReset_same today _ ((cleanup_lastResetDate now st).trans hdate)]
    rw [cleanup_dailyRequests]
    simp [hday]
  · intro hdate hlt hlen hmin
    simp only [RateLimiter.checkLimit]
    rw [dailyReset_same today _ ((cleanup_lastResetDate now st).trans hdate)]
    rw [cleanup_dailyRequests, recent_cleanup]
    rw [if_neg (by omega), if_pos hlen, hmin]
    rfl

/-- Witness for C3: with a 2-per-minute ceiling, three recent timestamps
and the oldest at 1000 ms, the call sleeps `60000 - (50000 - 1000) =
11000` ms then proceeds; with the daily ceiling at 3 already used, it
raises instead. -/
theorem c3_checkLimit_witness :
    RateLimiter.checkLimit 2 5 50000 "Tue" ⟨[1000, 2000, 3000], 3, "Tue"⟩ =
      .ok ⟨true, some 11000, ⟨[1000, 2000, 3000], 3, "Tue"⟩⟩ ∧
    RateLimiter.checkLimit 2 3 50000 "Tue" ⟨[1000, 2000, 3000], 3, "Tue"⟩ =
      .error "Daily rate limit exceeded" := by
  constructor
  · have h := (c3_checkLimit_daily_guard_and_sliding_window 2 5 50000 1000
      "Tue" ⟨[1000, 2000, 3000], 3, "Tue"⟩).2 rfl (by decide) (by decide)
      (by decide)
    exact h.trans (by decide)
  · exact (c3_checkLimit_daily_guard_and_sliding_window 2 3 50000 1000
      "Tue" ⟨[1000, 2000, 3000], 3, "Tue"⟩).1 rfl (by decide)

/-! ## C4 — retry boundary and exponential backoff -/

theorem run_allFail_500 (provider : Nat → FetchOutcome) (m : Nat) :
    ∀ a, 1 ≤ a → a ≤ m →
    (∀ i, a ≤ i → i ≤ m → provider i = .httpError 500 none) →
    OpenRouterClient.makeRequestWithRetry m provider a =
      ⟨.error "HTTP 500", m - a + 1,
        (List.range (m - a)).map (fun i => 2 ^ (a + i) * 1000)⟩ := by
  intro a
  generalize hn : m - a = n
  induction n generalizing a with
  | zero =>
    intro ha ham hp
    have haem : a = m := by omega
    unfold OpenRouterClient.makeRequestWithRetry
    rw [hp a le_rfl (by omega)]
    simp only [show (500 : Nat) ≠ 429 by decide, if_false,
      show (500 : Nat) ≠ 402 by decide]
    rw [dif_neg (by omega)]
    rw [dif_neg (by omega)]
    rfl
  | succ n ih =>
    intro ha ham hp
    have ham2 : a < m := by omega
    unfold OpenRouterClient.makeRequestWithRetry
    rw [hp a le_rfl (by omega)]
    simp only [show (500 : Nat) ≠ 429 by decide, if_false,
      show (500 : Nat) ≠ 402 by decide]
    rw [dif_pos ⟨by omega, ham2⟩]
    rw [ih (a + 1) (by omega) (by omega) (by omega)
      (fun i h1 h2 => hp i (by omega) h2)]
    refine congrArg (RetryTrace.mk (.error "HTTP 500") (n + 1 + 1)) ?_
    rw [List.range_succ_eq_map, List.map_cons, List.map_map]
    simp only [Nat.add_zero]
    refine congrArg (List.cons (2 ^ a * 1000)) ?_
    refine List.map_congr_left ?_
    intro i hi
    simp only [Function.comp_apply]
    have h3 : a + 1 + i = a + Nat.succ i := by omega
    rw [h3]

theorem run_500_then_ok (provider : Nat → FetchOutcome) (m : Nat)
    (resp : OpenRouterResponse) (hs : provider m = .success resp) :
    ∀ a, 1 ≤ a → a ≤ m →
    (∀ i, a ≤ i → i < m → provider i = .httpError 500 none) →
    OpenRouterClient.makeRequestWithRetry m provider a =
      ⟨.ok resp, m - a + 1,
        (List.range (m - a)).map (fun i => 2 ^ (a + i) * 1000)⟩ := by
  intro a
  generalize hn : m - a = n
  induction n generalizing a with
  | zero =>
    intro ha ham hp
    have haem : a = m := by omega
    subst haem
    unfold OpenRouterClient.makeRequestWithRetry
    rw [hs]
    rfl
  | succ n ih =>
    intro ha ham hp
    have ham2 : a < m := by omega
    unfold OpenRouterClient.makeRequestWithRetry
    rw [hp a le_rfl ham2]
    simp only [show (500 : Nat) ≠ 429 by decide, if_false,
      show (500 : Nat) ≠ 402 by decide]
    rw [dif_pos ⟨by omega, ham2⟩]
    rw [ih (a + 1) (by omega) (by omega) (by omega)
      (fun i h1 h2 => hp i (by omega) h2)]
    refine congrArg (RetryTrace.mk (.ok resp) (n + 1 + 1)) ?_
    rw [List.range_succ_eq_map, List.map_cons, List.map_map]
    simp only [Nat.add_zero]
    refine congrArg (List.cons (2 ^ a * 1000)) ?_
    refine List.map_congr_left ?_
    intro i hi
    simp only [Function.comp_apply]
    have h3 : a + 1 + i = a + Nat.succ i := by omega
    rw [h3]

/-- **C4**: with `maxRetries = m ≥ 1`, a provider answering 500 on the
first `m - 1` attempts and succeeding on attempt `m` makes the client
return the successful response after exactly `m` requests; a provider
answering 500 on all `m` attempts makes it raise `HTTP 500` after exactly
`m` requests; the backoff sleeps are `2^(i+1) * 1000` ms, each one double
the one before. -/
theorem c4_retry_boundary (m : Nat) (resp : OpenRouterResponse)
    (provider : Nat → FetchOutcome) (hm : 1 ≤ m) :
    ((∀ i, 1 ≤ i → i < m → provider i = .httpError 500 none) →
      provider m = .success resp →
      OpenRouterClient.makeRequestWithRetry m provider 1 =
        ⟨.ok resp, m,
          (List.range (m - 1)).map (fun i => 2 ^ (i + 1) * 1000)⟩) ∧
    ((∀ i, 1 ≤ i → i ≤ m → provider i = .httpError 500 none) →
      OpenRouterClient.makeRequestWithRetry m provider 1 =
        ⟨.error "HTTP 500", m,
          (List.range (m - 1)).map (fun i => 2 ^ (i + 1) * 1000)⟩) ∧
    (∀ j (hj1 : j + 1 < ((List.range (m - 1)).map
        (fun i => 2 ^ (i + 1) * 1000)).length)
      (hj0 : j < ((List.range (m - 1)).map
        (fun i => 2 ^ (i + 1) * 1000)).length),
      ((List.range (m - 1)).map (fun i => 2 ^ (i + 1) * 1000)).get ⟨j + 1, hj1⟩ =
        2 * ((List.range (m - 1)).map (fun i => 2 ^ (i + 1) * 1000)).get
          ⟨j, hj0⟩) := by
  refine ⟨?_, ?_, ?_⟩
  · intro hp hs
    rw [run_500_then_ok provider m resp hs 1 le_rfl hm hp]
    have hreq : m - 1 + 1 = m := by omega
    rw [hreq]
    refine congrArg (RetryTrace.mk (.ok resp) m) ?_
    refine List.map_congr_left ?_
    intro i hi
    have h3 : 1 + i = i + 1 := by omega
    rw [h3]
  · intro hp
    rw [run_allFail_500 provider m 1 le_rfl hm hp]
    have hreq : m - 1 + 1 = m := by omega
    rw [hreq]
    refine congrArg (RetryTrace.mk (.error "HTTP 500") m) ?_
    refine List.map_congr_left ?_
    intro i hi
    have h3 : 1 + i = i + 1 := by omega
    rw [h3]
  · intro j hj1 hj0
    simp only [List.get_eq_getElem, List.getElem_map, List.getElem_range]
    ring

/-- Witness for C4 at the production `maxRetries = 3`: two 500s then a
success return the response after 3 requests with sleeps 2000 ms and
4000 ms; three straight 500s raise `HTTP 500`. -/
theorem c4_retry_boundary_witness :
    OpenRouterClient.makeRequestWithRetry 3 wProvider500 1 =
      ⟨.ok wResp, 3, [2000, 4000]⟩ ∧
    OpenRouterClient.makeRequestWithRetry 3 (fun _ => .httpError 500 none) 1 =
      ⟨.error "HTTP 500", 3, [2000, 4000]⟩ := by
  constructor
  · have h := (c4_retry_boundary 3 wResp wProvider500 (by decide)).1
      (fun i h1 h2 => by
        simp only [wProvider500]
        rw [if_pos (by omega)])
      (by rfl)
    exact h.trans (by decide)
  · have h := (c4_retry_boundary 3 wResp (fun _ => .httpError 500 none)
      (by decide)).2.1 (fun i h1 h2 => rfl)
    exact h.trans (by decide)

/-! ## C5 — cost-tracker totals -/

theorem foldl_add_eq_sum (l : List ℚ) :
    ∀ a : ℚ, l.foldl (fun sum cost => sum + cost) a = a + l.sum := by
  induction l with
  | nil => intro a; simp
  | cons hd tl ih =>
      intro a
      simp only [List.foldl_cons, List.sum_cons, ih]
      ring

theorem getTotalCost_eq_sum (st : CostTracker) :
    CostTracker.getTotalCost st = (st.costs.map Prod.snd).sum := by
  simp [CostTracker.getTotalCost, foldl_add_eq_sum]

theorem mapSet_snd_sum (k : String) (c : ℚ) :
    ∀ m : List (String × ℚ),
    ((CostTracker.mapSet m k ((CostTracker.mapGet m k).getD 0 + c)).map
      Prod.snd).sum = (m.map Prod.snd).sum + c := by
  intro m
  induction m with
  | nil => simp [CostTracker.mapSet, CostTracker.mapGet]
  | cons hd tl ih =>
      obtain ⟨k0, v0⟩ := hd
      by_cases hk : k0 = k
      · subst hk
        simp [CostTracker.mapSet, CostTracker.mapGet]
        ring
      · simp only [CostTracker.mapSet, CostTracker.mapGet, if_neg hk,
          List.map_cons, List.sum_cons, ih]
        ring

theorem trackUsage_total (model : String) (u : Usage) (ct : CostTracker) :
    CostTracker.getTotalCost
        (OpenRouterClient.trackUsage model (some u) ct) =
      CostTracker.getTotalCost ct +
        CostTracker.calculateCost model u.prompt_tokens
          u.completion_tokens := by
  simp only [OpenRouterClient.trackUsage, CostTracker.recordUsage,
    getTotalCost_eq_sum]
  exact mapSet_snd_sum model _ ct.costs

theorem calculateCost_nonneg (model : String) (pt ctk : Nat) :
    0 ≤ CostTracker.calculateCost model pt ctk := by
  have hp : 0 ≤ ((CostTracker.MODEL_COSTS model).getD (1, 3)).1 ∧
      0 ≤ ((CostTracker.MODEL_COSTS model).getD (1, 3)).2 := by
    unfold CostTracker.MODEL_COSTS
    split_ifs <;> norm_num
  have h1 : (0 : ℚ) ≤ (pt : ℚ) / 1000000 := by positivity
  have h2 : (0 : ℚ) ≤ (ctk : ℚ) / 1000000 := by positivity
  exact add_nonneg (mul_nonneg h1 hp.1) (mul_nonneg h2 hp.2)

theorem runUsages_total (calls : List (String × Usage)) :
    ∀ ct : CostTracker,
    CostTracker.getTotalCost (runUsages calls ct) =
      CostTracker.getTotalCost ct +
        (calls.map (fun c => CostTracker.calculateCost c.1
          c.2.prompt_tokens c.2.completion_tokens)).sum := by
  induction calls with
  | nil => intro ct; simp [runUsages]
  | cons hd tl ih =>
      intro ct
      simp only [runUsages, List.foldl_cons] at ih ⊢
      rw [ih, trackUsage_total]
      simp only [List.map_cons, List.sum_cons]
      ring

/-- **C5**: starting from a fresh tracker, after a sequence of successful
chat calls with known token usage the total cost equals the sum of the
per-call `calculateCost` outputs; every prefix of the sequence has a total
no larger than the whole (monotone non-decrease); and a successful `chat`
updates the tracker by exactly the `trackUsage` step folded here. -/
theorem c5_cost_total_sum_monotone (calls : List (String × Usage)) :
    (CostTracker.getTotalCost (runUsages calls CostTracker.initial) =
      (calls.map (fun c => CostTracker.calculateCost c.1
        c.2.prompt_tokens c.2.completion_tokens)).sum) ∧
    (∀ pre suf, calls = pre ++ suf →
      CostTracker.getTotalCost (runUsages pre CostTracker.initial) ≤
        CostTracker.getTotalCost (runUsages calls CostTracker.initial)) ∧
    (∀ cfg provider now today rl ct req resp rl2 ct2,
      OpenRouterClient.chat cfg provider now today rl ct req =
        .ok (resp, rl2, ct2) →
      ct2 = OpenRouterClient.trackUsage req.model resp.usage ct) := by
  refine ⟨?_, ?_, ?_⟩
  · rw [runUsages_total]
    simp [CostTracker.getTotalCost, CostTracker.initial]
  · intro pre suf hsplit
    subst hsplit
    have happ : runUsages (pre ++ suf) CostTracker.initial =
        runUsages suf (runUsages pre CostTracker.initial) := by
      simp [runUsages, List.foldl_append]
    rw [happ, runUsages_total suf (runUsages pre CostTracker.initial)]
    have hsum : 0 ≤ (suf.map (fun c => CostTracker.calculateCost c.1
        c.2.prompt_tokens c.2.completion_tokens)).sum := by
      refine List.sum_nonneg ?_
      intro x hx
      simp only [List.mem_map] at hx
      obtain ⟨c, hc, hxc⟩ := hx
      rw [← hxc]
      exact calculateCost_nonneg c.1 c.2.prompt_tokens c.2.completion_tokens
    linarith
  · intro cfg provider now today rl ct req resp rl2 ct2 h
    unfold OpenRouterClient.chat at h
    split at h
    · cases h
    · split at h
      · cases h
      · cases h
        rfl

/-- Witness for C5: two successful calls — one on a priced model, one on an
unknown model falling back to the default rate — total `13/2`, and the
one-call prefix total does not exceed it; a concrete successful `chat`
updates the tracker by the trackUsage step. -/
theorem c5_cost_witness :
    CostTracker.getTotalCost (runUsages
      [("meta-llama/llama-4-maverick", ⟨1000000, 500000, 1500000⟩),
       ("unknown-model", ⟨2000000, 1000000, 3000000⟩)]
      CostTracker.initial) = 13/2 ∧
    CostTracker.getTotalCost (runUsages
      [("meta-llama/llama-4-maverick", ⟨1000000, 500000, 1500000⟩)]
      CostTracker.initial) ≤
      CostTracker.getTotalCost (runUsages
        [("meta-llama/llama-4-maverick", ⟨1000000, 500000, 1500000⟩),
         ("unknown-model", ⟨2000000, 1000000, 3000000⟩)]
        CostTracker.initial) := by
  constructor
  · refine (c5_cost_total_sum_monotone
      [("meta-llama/llama-4-maverick", ⟨1000000, 500000, 1500000⟩),
       ("unknown-model", ⟨2000000, 1000000, 3000000⟩)]).1.trans ?_
    simp [CostTracker.calculateCost, CostTracker.MODEL_COSTS]
    norm_num
  · exact (c5_cost_total_sum_monotone
      [("meta-llama/llama-4-maverick", ⟨1000000, 500000, 1500000⟩),
       ("unknown-model", ⟨2000000, 1000000, 3000000⟩)]).2.1
      [("meta-llama/llama-4-maverick", ⟨1000000, 500000, 1500000⟩)]
      [("unknown-model", ⟨2000000, 1000000, 3000000⟩)] rfl

/-! ## C6 — generateHeadline on malformed JSON -/

/-- **C6, counterexample**: a model response whose content is prose rather
than JSON makes `generateHeadline` throw a JSON parse error — it does not
fall back to treating the whole response as the headline. -/
theorem c6_counterexample_throws_on_malformed_json :
    ContentRewritingService.generateHeadline (.ok wPlainResp) =
      .error "Unexpected token in JSON" := by
  rfl

/-- **C6, amended**: `generateHeadline` feeds the first choice's content
straight into `JSON.parse` with no guard: a parse failure propagates as a
thrown error, and a parse success is returned as the parsed object. -/
theorem c6_generateHeadline_propagates_parse_error
    (resp : OpenRouterResponse) (choice : Choice)
    (hc : resp.choices.head? = some choice) :
    (ContentRewritingService.isErr
        (Json.jsonParse choice.message.content) = true →
      ContentRewritingService.isErr
        (ContentRewritingService.generateHeadline (.ok resp)) = true) ∧
    (∀ j, Json.jsonParse choice.message.content = .ok j →
      ContentRewritingService.generateHeadline (.ok resp) = .ok j) := by
  constructor
  · intro hparse
    simp only [ContentRewritingService.generateHeadline, hc]
    exact hparse
  · intro j hj
    simp only [ContentRewritingService.generateHeadline, hc]
    exact hj

/-- Witness for the amended C6: the prose response throws, the JSON
response parses to the headline object. -/
theorem c6_generateHeadline_witness :
    ContentRewritingService.isErr
      (ContentRewritingService.generateHeadline (.ok wPlainResp)) = true ∧
    ContentRewritingService.generateHeadline (.ok wJsonResp) =
      .ok (.obj [("headline", .str "Hola")]) := by
  constructor
  · exact (c6_generateHeadline_propagates_parse_error wPlainResp _ rfl).1 rfl
  · exact (c6_generateHeadline_propagates_parse_error wJsonResp _ rfl).2 _ rfl

/-! ## C7 / C8 — job result vs. status, batch behaviour -/

/-- Case analysis of one `rewriteNoticia` run: the returned job is
terminal; a completed job carries a result; a failed job carries a result
exactly when the failure came from the `updateOriginal` write (which runs
after `job.result` is assigned); and an error is rethrown iff the job
failed. -/
theorem rewriteNoticia_facts (env : ContentRewriterIntegration.ItemEnv)
    (config : RewriteJobConfig) (jobId : String) (now : Int) :
    ((ContentRewriterIntegration.rewriteNoticia env config jobId
        now).1.status = .completed ∨
      (ContentRewriterIntegration.rewriteNoticia env config jobId
        now).1.status = .failed) ∧
    ((ContentRewriterIntegration.rewriteNoticia env config jobId
        now).1.status = .completed →
      (ContentRewriterIntegration.rewriteNoticia env config jobId
        now).1.result.isSome = true) ∧
    ((ContentRewriterIntegration.rewriteNoticia env config jobId
        now).1.status = .failed →
      (ContentRewriterIntegration.rewriteNoticia env config jobId
        now).1.result.isSome = true →
      jsTruthy config.updateOriginal = true ∧
      ContentRewritingService.isErr env.updateOutcome = true) ∧
    ((ContentRewriterIntegration.rewriteNoticia env config jobId
        now).2.isSome = true ↔
      (ContentRewriterIntegration.rewriteNoticia env config jobId
        now).1.status = .failed) := by
  unfold ContentRewriterIntegration.rewriteNoticia
  simp only [ContentRewriterIntegration.failJob]
  split
  · simp
  · split
    · simp
    · split
      · simp
      · split
        · rename_i hupd
          by_cases hu : jsTruthy config.updateOriginal = true
          · simp only [hu, if_true] at hupd
            simp [hu, ContentRewritingService.isErr, hupd]
          · simp only [Bool.not_eq_true] at hu
            simp [hu] at hupd
        · simp

/-- **C7, counterexample**: with a successful rewrite but a failing
`updateNoticia` write (and `updateOriginal: true`), the job ends in status
`failed` while still carrying a populated result — refuting "a failed job
never carries a populated result". -/
theorem c7_counterexample_failed_job_with_result :
    (ContentRewriterIntegration.rewriteNoticia wEnvUpdateFails wUpdateConfig
      "job_1" 0).1.status = .failed ∧
    ((ContentRewriterIntegration.rewriteNoticia wEnvUpdateFails wUpdateConfig
      "job_1" 0).1.result).isSome = true := by
  constructor <;> rfl

/-- **C7, amended**: a terminal job's result is populated if its status is
`completed`; a `failed` job may also carry a populated result, but only
when `updateOriginal` was requested and the `updateNoticia` write failed —
every failure at or before the rewrite itself leaves the result empty. -/
theorem c7_result_status_amended (env : ContentRewriterIntegration.ItemEnv)
    (config : RewriteJobConfig) (jobId : String) (now : Int) :
    ((ContentRewriterIntegration.rewriteNoticia env config jobId
        now).1.status = .completed ∨
      (ContentRewriterIntegration.rewriteNoticia env config jobId
        now).1.status = .failed) ∧
    ((ContentRewriterIntegration.rewriteNoticia env config jobId
        now).1.status = .completed →
      (ContentRewriterIntegration.rewriteNoticia env config jobId
        now).1.result.isSome = true) ∧
    ((ContentRewriterIntegration.rewriteNoticia env config jobId
        now).1.status = .failed →
      (ContentRewriterIntegration.rewriteNoticia env config jobId
        now).1.result.isSome = true →
      jsTruthy config.updateOriginal = true ∧
      ContentRewritingService.isErr env.updateOutcome = true) :=
  ⟨(rewriteNoticia_facts env config jobId now).1,
    (rewriteNoticia_facts env config jobId now).2.1,
    (rewriteNoticia_facts env config jobId now).2.2.1⟩

/-- Witness for the amended C7: the all-success environment completes with
a populated result; the failing-update environment fails yet satisfies the
amended condition. -/
theorem c7_result_status_witness :
    ((ContentRewriterIntegration.rewriteNoticia wEnvOk
        { noticiaId := "n2" } "job_2" 0).1.result.isSome = true) ∧
    (jsTruthy wUpdateConfig.updateOriginal = true ∧
      ContentRewritingService.isErr wEnvUpdateFails.updateOutcome = true) := by
  constructor
  · exact (c7_result_status_amended wEnvOk { noticiaId := "n2" }
      "job_2" 0).2.1 rfl
  · exact (c7_result_status_amended wEnvUpdateFails wUpdateConfig
      "job_1" 0).2.2 rfl rfl

/-- **C8, counterexample**: in a two-item batch whose first item's rewrite
throws, the second item still runs to completion and both jobs are
recorded, but the `Promise.all` in `batchRewrite` rejects with the first
item's error: the batch call itself aborts instead of returning the job
list. -/
theorem c8_counterexample_batch_rejects :
    (ContentRewriterIntegration.batchRewrite wBatchEnvOf {}
      [wNoticia, wNoticia2] 0).result = .error "Rate limit exceeded" ∧
    ((ContentRewriterIntegration.batchRewrite wBatchEnvOf {}
      [wNoticia, wNoticia2] 0).jobs.map RewriteJob.status) =
      [.failed, .completed] := by
  constructor <;> rfl

/-- **C8, amended**: every item of the batch is processed to a terminal
job recorded in the queue statistics, an exception in one item never
prevents the others from completing; however `batchRewrite` resolves to
the job list only when no item failed — if any item failed it rejects with
that item's (rethrown) error, so the caller sees the batch call abort. -/
theorem c8_batch_amended (envOf : String → ContentRewriterIntegration.ItemEnv)
    (cfg : ContentRewriterIntegration.BatchRewriteConfig)
    (noticias : List Noticia) (now : Int) :
    ((ContentRewriterIntegration.batchRewrite envOf cfg noticias now).jobs.length
        = noticias.length) ∧
    (∀ jb ∈ (ContentRewriterIntegration.batchRewrite envOf cfg noticias
        now).jobs, jb.status = .completed ∨ jb.status = .failed) ∧
    ((∃ jb ∈ (ContentRewriterIntegration.batchRewrite envOf cfg noticias
        now).jobs, jb.status = .failed) ↔
      ∃ e, (ContentRewriterIntegration.batchRewrite envOf cfg noticias
        now).result = .error e) := by
  refine ⟨?_, ?_, ?_⟩
  · simp [ContentRewriterIntegration.batchRewrite]
    split <;> simp
  · intro jb hjb
    simp only [ContentRewriterIntegration.batchRewrite] at hjb
    have hjb2 : jb ∈ (noticias.map
        (fun n => ContentRewriterIntegration.rewriteNoticia (envOf n.id)
          (ContentRewriterIntegration.batchJobConfig cfg n.id)
          ("job_" ++ n.id) now)).map Prod.fst := by
      revert hjb
      split <;> intro hjb <;> exact hjb
    simp only [List.map_map, List.mem_map] at hjb2
    obtain ⟨n, hn, hjbn⟩ := hjb2
    simp only [Function.comp_apply] at hjbn
    rw [← hjbn]
    exact (rewriteNoticia_facts (envOf n.id)
      (ContentRewriterIntegration.batchJobConfig cfg n.id)
      ("job_" ++ n.id) now).1
  · constructor
    · rintro ⟨jb, hjb, hfail⟩
      simp only [ContentRewriterIntegration.batchRewrite] at hjb ⊢
      have hjb2 : jb ∈ (noticias.map
          (fun n => ContentRewriterIntegration.rewriteNoticia (envOf n.id)
            (ContentRewriterIntegration.batchJobConfig cfg n.id)
            ("job_" ++ n.id) now)).map Prod.fst := by
        revert hjb
        split <;> intro hjb <;> exact hjb
      simp only [List.map_map, List.mem_map] at hjb2
      obtain ⟨n, hn, hjbn⟩ := hjb2
      simp only [Function.comp_apply] at hjbn
      have hthrown : (ContentRewriterIntegration.rewriteNoticia (envOf n.id)
          (ContentRewriterIntegration.batchJobConfig cfg n.id)
          ("job_" ++ n.id) now).2.isSome = true := by
        refine ((rewriteNoticia_facts (envOf n.id)
          (ContentRewriterIntegration.batchJobConfig cfg n.id)
          ("job_" ++ n.id) now).2.2.2).2 ?_
        rw [hjbn]
        exact hfail
      obtain ⟨e, he⟩ := Option.isSome_iff_exists.mp hthrown
      have hmem : e ∈ (noticias.map
          (fun n => ContentRewriterIntegration.rewriteNoticia (envOf n.id)
            (ContentRewriterIntegration.batchJobConfig cfg n.id)
            ("job_" ++ n.id) now)).filterMap Prod.snd := by
        rw [List.mem_filterMap]
        refine ⟨_, List.mem_map_of_mem _ hn, he⟩
      rcases hh : ((noticias.map
          (fun n => ContentRewriterIntegration.rewriteNoticia (envOf n.id)
            (ContentRewriterIntegration.batchJobConfig cfg n.id)
            ("job_" ++ n.id) now)).filterMap Prod.snd).head? with _ | e0
      · rw [List.head?_eq_none_iff] at hh
        rw [hh] at hmem
        cases hmem
      · rw [hh]
        exact ⟨e0, rfl⟩
    · rintro ⟨e, he⟩
      simp only [ContentRewriterIntegration.batchRewrite] at he ⊢
      rcases hh : ((noticias.map
          (fun n => ContentRewriterIntegration.rewriteNoticia (envOf n.id)
            (ContentRewriterIntegration.batchJobConfig cfg n.id)
            ("job_" ++ n.id) now)).filterMap Prod.snd).head? with _ | e0
      · rw [hh] at he
        simp at he
      · have hmem : e0 ∈ (noticias.map
            (fun n => ContentRewriterIntegration.rewriteNoticia (envOf n.id)
              (ContentRewriterIntegration.batchJobConfig cfg n.id)
              ("job_" ++ n.id) now)).filterMap Prod.snd := by
          exact List.mem_of_mem_head? hh
        rw [List.mem_filterMap] at hmem
        obtain ⟨run, hrun, hrune⟩ := hmem
        rw [List.mem_map] at hrun
        obtain ⟨n, hn, hrn⟩ := hrun
        have hfail : run.1.status = .failed := by
          rw [← hrn]
          refine ((rewriteNoticia_facts (envOf n.id)
            (ContentRewriterIntegration.batchJobConfig cfg n.id)
            ("job_" ++ n.id) now).2.2.2).1 ?_
          rw [hrn, hrune]
          rfl
        refine ⟨run.1, ?_, hfail⟩
        rw [hh]
        simp only [List.map_map]
        rw [List.mem_map]
        exact ⟨n, hn, by simp only [Function.comp_apply]; rw [hrn]⟩

/-- Witness for the amended C8 at the concrete two-item batch: both jobs
are recorded and the batch promise rejects. -/
theorem c8_batch_witness :
    (ContentRewriterIntegration.batchRewrite wBatchEnvOf {}
      [wNoticia, wNoticia2] 0).jobs.length = 2 ∧
    ∃ e, (ContentRewriterIntegration.batchRewrite wBatchEnvOf {}
      [wNoticia, wNoticia2] 0).result = .error e := by
  constructor
  · exact (c8_batch_amended wBatchEnvOf {} [wNoticia, wNoticia2] 0).1
  · exact (c8_batch_amended wBatchEnvOf {} [wNoticia, wNoticia2] 0).2.2.mp
      (by decide)

/-! ## C9 / C10 — rewrite result cost and response cache -/

theorem cacheGet_mem (now : Int) (c : ContentRewritingService.CacheState)
    (key : String) (v : RewriteResult)
    (h : ContentRewritingService.cacheGet now c key = some v) :
    ∃ kv ∈ c, (kv : String × ContentRewritingService.CacheEntry).2.value = v := by
  unfold ContentRewritingService.cacheGet at h
  rcases hf : List.find? (fun kv => kv.1 = key) c with _ | kv
  · rw [hf] at h
    cases h
  · rw [hf] at h
    dsimp only at h
    by_cases hc : now < kv.2.expiresAt
    · rw [if_pos hc] at h
      injection h with h2
      exact ⟨kv, List.mem_of_find?_eq_some hf, h2⟩
    · rw [if_neg hc] at h
      cases h

theorem cacheSet_wf (c : ContentRewritingService.CacheState) (key : String)
    (v : RewriteResult) (ttl now : Int) (hwf : CacheWF c) (hv : v.cost = 0) :
    CacheWF (ContentRewritingService.cacheSet c key v ttl now) := by
  intro kv hkv
  unfold ContentRewritingService.cacheSet at hkv
  rcases List.mem_cons.mp hkv with h | h
  · rw [h]
    exact hv
  · exact hwf kv (List.mem_of_mem_filter h)

theorem cacheGet_set (c : ContentRewritingService.CacheState) (key : String)
    (v : RewriteResult) (ttl now1 now2 : Int) (h : now2 < now1 + ttl) :
    ContentRewritingService.cacheGet now2
      (ContentRewritingService.cacheSet c key v ttl now1) key = some v := by
  unfold ContentRewritingService.cacheGet ContentRewritingService.cacheSet
  rw [List.find?_cons_of_pos _ (by simp)]
  simp [h]

theorem calculateCost_pos (model : String) (pt ctk : Nat)
    (h : 0 < pt + ctk) : 0 < CostTracker.calculateCost model pt ctk := by
  have hp : 0 < ((CostTracker.MODEL_COSTS model).getD (1, 3)).1 ∧
      0 < ((CostTracker.MODEL_COSTS model).getD (1, 3)).2 := by
    unfold CostTracker.MODEL_COSTS
    split_ifs <;> norm_num
  unfold CostTracker.calculateCost
  rcases Nat.lt_or_ge 0 pt with hpt | hpt
  · refine add_pos_of_pos_of_nonneg ?_ ?_
    · refine mul_pos ?_ hp.1
      have : (0 : ℚ) < (pt : ℚ) := by exact_mod_cast hpt
      positivity
    · refine mul_nonneg ?_ (le_of_lt hp.2)
      positivity
  · have hctk : 0 < ctk := by omega
    refine add_pos_of_nonneg_of_pos ?_ ?_
    · refine mul_nonneg ?_ (le_of_lt hp.1)
      positivity
    · refine mul_pos ?_ hp.2
      have : (0 : ℚ) < (ctk : ℚ) := by exact_mod_cast hctk
      positivity

theorem rewriteNoticia_completed_cost
    (env : ContentRewriterIntegration.ItemEnv) (config : RewriteJobConfig)
    (jobId : String) (now : Int) (r : RewriteResult)
    (hrw : env.rewriteOutcome = .ok r) :
    (ContentRewriterIntegration.rewriteNoticia env config jobId now).1.status
        = .completed →
    ((ContentRewriterIntegration.rewriteNoticia env config jobId
      now).1.result.map JobResult.cost) = some r.cost := by
  unfold ContentRewriterIntegration.rewriteNoticia
  simp only [ContentRewriterIntegration.failJob]
  split
  · simp
  · split
    · rename_i e heq
      rw [hrw] at heq
      cases heq
    · rename_i rr heq
      rw [hrw] at heq
      injection heq with heq2
      subst heq2
      split
      · simp
      · split
        · simp
        · simp

/-- **C9**: a successful `rewriteNewsArticle` call always returns a
`RewriteResult` whose `cost` field is the hard-coded `0` (cache entries
only ever hold such results), while the cost tracker strictly grows by the
real `calculateCost` for any call with non-zero token usage; consequently
a completed `rewriteNoticia` job built from such a result reports
`result.cost = 0`. -/
theorem c9_result_cost_zero_tracker_accumulates
    (cfg : OpenRouterClient.Config) (provider : Nat → FetchOutcome)
    (now : Int) (today : String)
    (st : ContentRewritingService.ServiceState) (title content : String)
    (options : ContentRewritingService.RewriteOptions) (r : RewriteResult)
    (st2 : ContentRewritingService.ServiceState) (k : Nat) :
    (CacheWF st.cache →
      ContentRewritingService.rewriteNewsArticle cfg provider now today st
          title content options = .ok (r, st2, k) →
      r.cost = 0 ∧ CacheWF st2.cache) ∧
    (∀ model u ct, 0 < u.prompt_tokens + u.completion_tokens →
      CostTracker.getTotalCost ct <
        CostTracker.getTotalCost
          (OpenRouterClient.trackUsage model (some u) ct)) ∧
    (∀ env config jobId now2, env.rewriteOutcome = .ok r → r.cost = 0 →
      (ContentRewriterIntegration.rewriteNoticia env config jobId
          now2).1.status = .completed →
      ((ContentRewriterIntegration.rewriteNoticia env config jobId
        now2).1.result.map JobResult.cost) = some 0) := by
  refine ⟨?_, ?_, ?_⟩
  · intro hwf h
    simp only [ContentRewritingService.rewriteNewsArticle] at h
    split at h
    · rename_i cached hget
      simp only [Except.ok.injEq, Prod.mk.injEq] at h
      obtain ⟨h1, h2, h3⟩ := h
      subst h1
      subst h2
      obtain ⟨kv, hkv, hval⟩ := cacheGet_mem now st.cache _ cached hget
      exact ⟨hval ▸ hwf kv hkv, hwf⟩
    · rename_i hget
      split at h
      · cases h
      · rename_i response rl2 ct2 hchat
        split at h
        · cases h
        · rename_i choice hchoice
          split at h
          · cases h
          · rename_i usage husage
            simp only [Except.ok.injEq, Prod.mk.injEq] at h
            obtain ⟨h1, h2, h3⟩ := h
            subst h1
            subst h2
            refine ⟨rfl, ?_⟩
            exact cacheSet_wf st.cache _ _ 3600000 now hwf rfl
  · intro model u ct hu
    rw [trackUsage_total]
    have := calculateCost_pos model u.prompt_tokens u.completion_tokens hu
    linarith
  · intro env config jobId now2 hrw hcost hcompleted
    have h := rewriteNoticia_completed_cost env config jobId now2 r hrw
      hcompleted
    rw [h, hcost]

/-- Witness for C9: the cache-hit call on the pre-seeded cache returns the
zero-cost result; the tracker strictly grows on a 300-token usage; the
all-success job reports `result.cost = 0`. -/
theorem c9_result_cost_witness :
    wRewriteResult.cost = 0 ∧
    CostTracker.getTotalCost CostTracker.initial <
      CostTracker.getTotalCost (OpenRouterClient.trackUsage
        "meta-llama/llama-4-maverick" (some wUsage) CostTracker.initial) ∧
    ((ContentRewriterIntegration.rewriteNoticia wEnvOk
      { noticiaId := "n2" } "job_2" 0).1.result.map JobResult.cost) =
      some 0 := by
  refine ⟨?_, ?_, ?_⟩
  · exact ((c9_result_cost_zero_tracker_accumulates ⟨3, 20, 1000⟩ wProviderOk
      5 "d" wCachedService "t" "c" {} wRewriteResult wCachedService 0).1
      (by intro kv hkv; simp [wCachedService] at hkv; rw [hkv]; rfl)
      (by rfl)).1
  · exact (c9_result_cost_zero_tracker_accumulates ⟨3, 20, 1000⟩ wProviderOk
      5 "d" wCachedService "t" "c" {} wRewriteResult wCachedService 0).2.1
      "meta-llama/llama-4-maverick" wUsage CostTracker.initial (by decide)
  · exact (c9_result_cost_zero_tracker_accumulates ⟨3, 20, 1000⟩ wProviderOk
      5 "d" wCachedService "t" "c" {} wRewriteResult wCachedService 0).2.2
      wEnvOk { noticiaId := "n2" } "job_2" 0 rfl rfl rfl

/-- **C10**: two `rewriteNewsArticle` calls with the same title and content
inside the one-hour TTL share the cache entry whatever their options: the
first (cache-missing, LLM-issuing) call stores its result, and the second
call — with any other options, any other provider behaviour, any other
date — returns that stored result with zero chat calls and an unchanged
state, because the cache key hashes only `title + content`. -/
theorem c10_cache_ignores_options (cfg : OpenRouterClient.Config)
    (provider provider2 : Nat → FetchOutcome) (now1 now2 : Int)
    (today1 today2 : String) (st0 : ContentRewritingService.ServiceState)
    (title content : String)
    (opts1 opts2 : ContentRewritingService.RewriteOptions)
    (r : RewriteResult) (st1 : ContentRewritingService.ServiceState)
    (h1 : ContentRewritingService.rewriteNewsArticle cfg provider now1 today1
      st0 title content opts1 = .ok (r, st1, 1))
    (h3 : now2 < now1 + 3600000) :
    ContentRewritingService.rewriteNewsArticle cfg provider2 now2 today2
      st1 title content opts2 = .ok (r, st1, 0) := by
  simp only [ContentRewritingService.rewriteNewsArticle] at h1 ⊢
  split at h1
  · rename_i cached hget
    simp only [Except.ok.injEq, Prod.mk.injEq] at h1
    exact absurd h1.2.2 (by decide)
  · rename_i hget
    split at h1
    · cases h1
    · rename_i response rl2 ct2 hchat
      split at h1
      · cases h1
      · rename_i choice hchoice
        split at h1
        · cases h1
        · rename_i usage husage
          simp only [Except.ok.injEq, Prod.mk.injEq] at h1
          obtain ⟨hr, hst, -⟩ := h1
          subst hr
          subst hst
          rw [cacheGet_set st0.cache _ _ 3600000 now1 now2 h3]

/-- Witness for C10: with completely different options (style, tone,
length, preserveFacts, model) and even a dead provider, the second call at
t = 1000 returns the t = 0 call's cached result with zero chat calls. -/
theorem c10_cache_witness :
    ContentRewritingService.rewriteNewsArticle ⟨3, 20, 1000⟩
      (fun _ => .httpError 500 none) 1000 "e" wSt1 "t" "c"
      ⟨some "casual", some "critical", some "shorter", some false,
        some "openai/gpt-4o"⟩ = .ok (wR1, wSt1, 0) := by
  have hretry : OpenRouterClient.makeRequestWithRetry 3 wProviderOk 1 =
      ⟨.ok wResp, 1, []⟩ := by
    simp [OpenRouterClient.makeRequestWithRetry, wProviderOk]
  have h1 : ContentRewritingService.rewriteNewsArticle ⟨3, 20, 1000⟩
      wProviderOk 0 "d" wEmptyService "t" "c" {} = .ok (wR1, wSt1, 1) := by
    simp only [ContentRewritingService.rewriteNewsArticle,
      OpenRouterClient.chat, hretry]
    rfl
  exact c10_cache_ignores_options ⟨3, 20, 1000⟩ wProviderOk
    (fun _ => .httpError 500 none) 0 1000 "d" "e" wEmptyService "t" "c" {}
    ⟨some "casual", some "critical", some "shorter", some false,
      some "openai/gpt-4o"⟩ wR1 wSt1 h1 (by norm_num)
